import Mathlib

/-!
Verification of the anime-recommendation serving pipeline of
`src/Testing/api2.py` (Instagranime).

The development shallowly embeds the pure core of `api2.py`:
the item table (`anime_df` + `feature_matrix` + `id_to_index`),
`build_user_profile_from_indices`, `predict_scores_for_candidates`,
the candidate-pool filter chain used in both `generate_reel` and
`get_fallback_recommendations`, the session-boost branch of
`generate_reel`, the taste-profile update in `handle_feedback`,
and the request-validation step of the feedback route.

External collaborators are abstracted exactly as the source uses them:
the learned model `model.predict` is a per-row black box
`predict : List Rat -> Rat` (the batch contract is row-wise), and
`sklearn.metrics.pairwise.cosine_similarity` is a black box
`sim : List Rat -> List Rat -> Rat` applied to the two argument vectors.
Database reads (the stored taste profile, the related-id family) are passed
in as explicit inputs, mirroring the values the Python code reads before the
pure computation begins.  Floating point numbers are modelled by `Rat`.
-/

/-- One row of `anime_df`, together with its `feature_matrix` row.
`Option` fields model nullable (`NaN`/`None`) pandas cells; `genreList = none`
models a cell that is not a Python list (the code guards with
`isinstance(-, list)`). -/
structure Item where
  animeId : Int
  title : Option String
  titleEnglish : Option String
  genreList : Option (List String)
  studio : Option String
  promoLink : Option String
  meanScore : Option Rat
  overalRank : Option Rat
  vector : List Rat
deriving Repr, DecidableEq

def defaultItem : Item :=
  { animeId := 0, title := none, titleEnglish := none, genreList := none,
    studio := none, promoLink := none, meanScore := none, overalRank := none,
    vector := [] }

/-- The item table: `anime_df` rows in positional order. -/
abbrev Store := List Item

/-- `id_to_index`: maps an `anime_id` to its row index (first matching row),
`none` when the id is absent from the table. -/
def idToIndex : Store → Int → Option Nat
  | [], _ => none
  | it :: rest, i =>
      if it.animeId = i then some 0 else (idToIndex rest i).map (· + 1)

/-- `anime_df.iloc[idx]`. -/
def dfRow (store : Store) (idx : Nat) : Item :=
  store.getD idx defaultItem

/-- `feature_matrix[idx]`. -/
def vecAt (store : Store) (idx : Nat) : List Rat :=
  (dfRow store idx).vector

/-- Element-wise vector addition (`numpy` broadcasting on equal-length rows). -/
def vecAdd (a b : List Rat) : List Rat :=
  List.zipWith (· + ·) a b

/-- Element-wise sum of a list of vectors. -/
def vecSum : List (List Rat) → List Rat
  | [] => []
  | [v] => v
  | v :: w :: vs => vecAdd v (vecSum (w :: vs))

/-- `np.mean(vectors, axis=0)`: element-wise arithmetic mean. -/
def vecMean (vs : List (List Rat)) : List Rat :=
  (vecSum vs).map (· / (vs.length : Rat))

/-- Stated from the spec's words, for comparison with `vecMean`: the
`d`-dimensional vector whose `j`-th component is the arithmetic mean of the
`j`-th components of the input vectors. -/
def specElementwiseMean (vs : List (List Rat)) (d : Nat) : List Rat :=
  (List.range d).map (fun j => ((vs.map (fun v => v.getD j 0)).sum) / (vs.length : Rat))

/-- The flattened genre multiset of the selected rows
(`[g for sublist in user_rated_df['genre_list'] if isinstance(sublist, list) for g in sublist]`). -/
def allGenres (store : Store) (indices : List Nat) : List String :=
  indices.flatMap (fun i => ((dfRow store i).genreList).getD [])

/-- `pd.Series(flattened).value_counts().nlargest(5).index.tolist()`:
the distinct genres sorted by multiplicity descending (ties kept in
first-encounter order by the stable sort), truncated to 5. -/
def topGenresOf (store : Store) (indices : List Nat) : List String :=
  let gs := allGenres store indices
  (List.insertionSort (fun a b => gs.count b ≤ gs.count a) gs.eraseDups).take 5

/-- `user_rated_df.groupby('studio').size() / len(user_rated_df)` followed by
`.get(studio, 0)` lookup: the empirical studio distribution of the selected
rows.  A `none` studio (pandas `NaN`) is dropped by `groupby`, hence looks up
to `0`. -/
def studioPrefsOf (store : Store) (indices : List Nat) : Option String → Rat
  | none => 0
  | some name =>
      ((indices.countP (fun i => (dfRow store i).studio = some name) : Nat) : Rat)
        / (indices.length : Rat)

/-- `build_user_profile_from_indices` of `api2.py`. -/
def build_user_profile_from_indices (store : Store) (likedIndices : List Nat) :
    List Rat × List String × (Option String → Rat) :=
  (vecMean (likedIndices.map (vecAt store)),
   topGenresOf store likedIndices,
   studioPrefsOf store likedIndices)

/-- A scored recommendation `{'anime': row, 'score': score}`. -/
structure Rec where
  item : Item
  score : Rat
deriving Repr, DecidableEq

/-- Descending-score order used by `sorted(..., key=lambda x: x[1], reverse=True)`. -/
def relScore (a b : Rec) : Prop := b.score ≤ a.score

instance : DecidableRel relScore := fun a b =>
  inferInstanceAs (Decidable (b.score ≤ a.score))

instance : IsTotal Rec relScore := ⟨fun a b => le_total b.score a.score⟩

instance : IsTrans Rec relScore := ⟨fun _ _ _ h1 h2 => le_trans h2 h1⟩

/-- The per-candidate feature assembly in `predict_scores_for_candidates`:
`np.concatenate([user_profile_vector, vector, [g_match, s_pref]])` where
`g_match = sum(1 for g in genres if g in top_genres) / 5.0 if top_genres else 0`
and `s_pref = studio_prefs.get(info['studio'], 0)`. -/
def combinedFeatures (store : Store) (pv : List Rat) (tg : List String)
    (sp : Option String → Rat) (idx : Nat) : List Rat :=
  let info := dfRow store idx
  let genres := info.genreList.getD []
  let gMatch : Rat :=
    if tg ≠ [] then ((genres.countP (fun g => decide (g ∈ tg)) : Nat) : Rat) / 5 else 0
  pv ++ info.vector ++ [gMatch, sp info.studio]

/-- `predict_scores_for_candidates` of `api2.py`.  The learned model is the
abstract row-wise `predict`.  Note the Python truthiness of `if limit:`:
`limit = None` and `limit = 0` both skip the truncation. -/
def predict_scores_for_candidates (store : Store) (predict : List Rat → Rat)
    (candidateIds : List Int) (pv : List Rat) (tg : List String)
    (sp : Option String → Rat) (limit : Option Nat) : List Rec :=
  let validIds := candidateIds.filter (fun i => (idToIndex store i).isSome)
  let scored := validIds.map (fun i =>
    let idx := (idToIndex store i).getD 0
    ({ item := dfRow store idx,
       score := predict (combinedFeatures store pv tg sp idx) } : Rec))
  let ranked := List.insertionSort relScore scored
  match limit with
  | some n => if 0 < n then ranked.take n else ranked
  | none => ranked

/-- `EXPLICIT_GENRES_SET`. -/
def explicitGenres : List String := ["Ecchi", "Erotica", "Hentai"]

/-- `anime_df['promo_link'].notna() & (anime_df['promo_link'] != '')`. -/
def hasPromo (it : Item) : Bool :=
  match it.promoLink with
  | some s => !(s == "")
  | none => false

/-- `isinstance(genres, list) and not EXPLICIT_GENRES_SET.isdisjoint(genres)`. -/
def isExplicitItem (it : Item) : Bool :=
  match it.genreList with
  | some gs => gs.any (fun g => decide (g ∈ explicitGenres))
  | none => false

/-- The candidate-pool filter chain; this code appears verbatim both in
`generate_reel` (lines 217-223) and in `get_fallback_recommendations`
(lines 412-418): promo-link presence, explicit-content filter, and the
`required_genres.issubset(set(g_list))` genre filter (skipped when
`genres_filter` is empty, by Python list truthiness). -/
def candidatePoolFilter (store : Store) (allowExplicit : Bool)
    (genresFilter : List String) : List Item :=
  let p1 := store.filter hasPromo
  let p2 := if allowExplicit then p1 else p1.filter (fun it => !(isExplicitItem it))
  if genresFilter.isEmpty then p2
  else p2.filter (fun it =>
    match it.genreList with
    | some gs => genresFilter.all (fun g => decide (g ∈ gs))
    | none => false)

/-- `sort_values('overal_rank', ascending=True)` key order: ascending on
present ranks, missing (`NaN`) ranks last. -/
def rankLe (a b : Option Rat) : Prop :=
  match a, b with
  | some x, some y => x ≤ y
  | _, none => True
  | none, some _ => False

instance : DecidableRel rankLe := fun a b =>
  match a, b with
  | some x, some y => inferInstanceAs (Decidable (x ≤ y))
  | some _, none => inferInstanceAs (Decidable True)
  | none, none => inferInstanceAs (Decidable True)
  | none, some _ => inferInstanceAs (Decidable False)

/-- Row order of the fallback sort, lifted to items. -/
def relRank (a b : Item) : Prop := rankLe a.overalRank b.overalRank

instance : DecidableRel relRank := fun a b =>
  inferInstanceAs (Decidable (rankLe a.overalRank b.overalRank))

instance : IsTotal (Option Rat) rankLe :=
  ⟨fun a b => by
    cases a <;> cases b <;> simp [rankLe]
    exact le_total _ _⟩

instance : IsTrans (Option Rat) rankLe :=
  ⟨fun a b c h1 h2 => by
    cases a <;> cases b <;> cases c <;> simp_all [rankLe]
    exact le_trans h1 h2⟩

instance : IsTotal Item relRank :=
  ⟨fun a b => IsTotal.total (r := rankLe) a.overalRank b.overalRank⟩

instance : IsTrans Item relRank :=
  ⟨fun a b c h1 h2 =>
    IsTrans.trans (r := rankLe) a.overalRank b.overalRank c.overalRank h1 h2⟩

/-- `get_fallback_recommendations` of `api2.py`: shared pool filter, drop the
exclusion set, sort by `overal_rank` ascending, take 15, score each row with
its `mean_score` (0 when `NaN`/absent). -/
def get_fallback_recommendations (store : Store) (seenIds : Finset Int)
    (allowExplicit : Bool) (genresFilter : List String) : List Rec :=
  let pool := candidatePoolFilter store allowExplicit genresFilter
  let pool2 := pool.filter (fun it => !(decide (it.animeId ∈ seenIds)))
  let sortedPool := List.insertionSort relRank pool2
  (sortedPool.take 15).map (fun it => { item := it, score := it.meanScore.getD 0 })

/-- The persisted taste profile JSON
`{'liked_ids': [...], 'disliked_ids': [...], 'scrolled_past_ids': [...]}`.
`likedIds` is an ordered list with meaningful duplicates; the other two are
stored as JSON lists and converted to Python sets on read. -/
structure StoredProfile where
  likedIds : List Int
  dislikedIds : List Int
  scrolledPastIds : List Int
deriving Repr, DecidableEq

/-- `recommendation_type` of the `generate_reel` response. -/
inductive RecType where
  | personalized_model
  | fallback_cold_start
  | fallback_no_match
deriving Repr, DecidableEq

/-- The request-dependent inputs of `generate_reel` after HTTP/JSON and title
resolution: `isNewSession` is `'username' in data`; `statedLikedIds` is
`[title_map.get(t) for t in liked_anime_titles if t in title_map]`. -/
structure ReelRequest where
  isNewSession : Bool
  statedLikedIds : List Int
  seenAnimeIds : List Int
  allowExplicit : Bool
  genresFilter : List String
deriving Repr, DecidableEq

/-- The profile `generate_reel` works with: the stored row when present and
non-empty, otherwise the freshly built `{'liked_ids': stated, ...}`. -/
def reelEffectiveProfile (storedProfile : Option StoredProfile)
    (req : ReelRequest) : StoredProfile :=
  match storedProfile with
  | some p => p
  | none => { likedIds := req.statedLikedIds, dislikedIds := [], scrolledPastIds := [] }

/-- `final_exclusion_set = seen_from_client | liked_from_db | disliked_from_db | scrolled_from_db`. -/
def reelExclusion (storedProfile : Option StoredProfile) (req : ReelRequest) : Finset Int :=
  let p := reelEffectiveProfile storedProfile req
  req.seenAnimeIds.toFinset ∪ p.likedIds.toFinset ∪ p.dislikedIds.toFinset
    ∪ p.scrolledPastIds.toFinset

/-- `candidate_ids = list(all_possible_ids - final_exclusion_set)` where
`all_possible_ids = set(df_pool['anime_id'])`; the list is kept in table
order (Python set order is arbitrary; no claim depends on it). -/
def reelCandidateIds (store : Store) (storedProfile : Option StoredProfile)
    (req : ReelRequest) : List Int :=
  ((candidatePoolFilter store req.allowExplicit req.genresFilter).map (·.animeId)).filter
    (fun i => !(decide (i ∈ reelExclusion storedProfile req)))

/-- The session-boost loop of `generate_reel` (lines 232-242): for each ranked
recommendation whose id is in `id_to_index`, add
`cosine_similarity(initial_taste_vector, rec_vector) * 5.0` to its score, then
re-sort descending by score. -/
def sessionBoost (store : Store) (sim : List Rat → List Rat → Rat)
    (initialTasteVector : List Rat) (ranked : List Rec) : List Rec :=
  let boosted := ranked.filterMap (fun r =>
    if (idToIndex store r.item.animeId).isSome then
      some { r with
        score := r.score
          + sim initialTasteVector (vecAt store ((idToIndex store r.item.animeId).getD 0)) * 5 }
    else none)
  List.insertionSort relScore boosted

/-- The recommendation core of `generate_reel` (lines 189-243), after the DB
profile read (`storedProfile`, `none` when the row is absent or empty) and
title resolution.  `predict` and `sim` abstract `model.predict` and
`cosine_similarity`. -/
def generate_reel_core (store : Store) (predict : List Rat → Rat)
    (sim : List Rat → List Rat → Rat) (storedProfile : Option StoredProfile)
    (req : ReelRequest) : List Rec × RecType :=
  let likedAnimeIds := (reelEffectiveProfile storedProfile req).likedIds
  let exclusion := reelExclusion storedProfile req
  if likedAnimeIds.isEmpty then
    (get_fallback_recommendations store exclusion req.allowExplicit req.genresFilter,
     RecType.fallback_cold_start)
  else
    let likedIndices := likedAnimeIds.filterMap (idToIndex store)
    if likedIndices.isEmpty then
      (get_fallback_recommendations store exclusion req.allowExplicit req.genresFilter,
       RecType.fallback_no_match)
    else
      let profile := build_user_profile_from_indices store likedIndices
      let candidateIds := reelCandidateIds store storedProfile req
      let ranked := predict_scores_for_candidates store predict candidateIds
        profile.1 profile.2.1 profile.2.2 (some 15)
      let ranked2 :=
        if req.isNewSession && !likedIndices.isEmpty then
          sessionBoost store sim (vecMean (likedIndices.map (vecAt store))) ranked
        else ranked
      (ranked2, RecType.personalized_model)

/-- The six feedback reasons the `elif` chain of `handle_feedback` recognizes. -/
inductive Reason where
  | like_button
  | save_to_watchlist
  | watched_10_seconds
  | super_like_button
  | not_interested_button
  | scrolled_past
deriving Repr, DecidableEq

/-- Maps the reason string to the branch of the `elif` chain; `none` means no
branch matches (the purge still runs and is persisted). -/
def parseReason (s : String) : Option Reason :=
  if s = "like_button" then some Reason.like_button
  else if s = "save_to_watchlist" then some Reason.save_to_watchlist
  else if s = "watched_10_seconds" then some Reason.watched_10_seconds
  else if s = "super_like_button" then some Reason.super_like_button
  else if s = "not_interested_button" then some Reason.not_interested_button
  else if s = "scrolled_past" then some Reason.scrolled_past
  else none

/-- The in-memory profile inside `handle_feedback`: `liked_ids` a list,
`disliked_ids` and `scrolled_past_ids` Python sets. -/
structure ProfileState where
  likedIds : List Int
  dislikedIds : Finset Int
  scrolledPastIds : Finset Int
deriving DecidableEq

/-- The taste-profile update of `handle_feedback` (lines 266-281): purge the
related family from all three collections, then apply the reason-specific
mutation (`affected_ids * 3` is three concatenated copies). -/
def handle_feedback_update (affected : List Int) (profile : StoredProfile)
    (reason : Option Reason) : ProfileState :=
  let liked1 := profile.likedIds.filter (fun i => !(decide (i ∈ affected)))
  let disliked1 := profile.dislikedIds.toFinset \ affected.toFinset
  let scrolled1 := profile.scrolledPastIds.toFinset \ affected.toFinset
  match reason with
  | some Reason.like_button | some Reason.save_to_watchlist
  | some Reason.watched_10_seconds =>
      { likedIds := liked1 ++ affected, dislikedIds := disliked1,
        scrolledPastIds := scrolled1 }
  | some Reason.super_like_button =>
      { likedIds := liked1 ++ (affected ++ affected ++ affected),
        dislikedIds := disliked1, scrolledPastIds := scrolled1 }
  | some Reason.not_interested_button =>
      { likedIds := liked1, dislikedIds := disliked1 ∪ affected.toFinset,
        scrolledPastIds := scrolled1 }
  | some Reason.scrolled_past =>
      if liked1.toFinset ∩ affected.toFinset ≠ ∅ ∨ disliked1 ∩ affected.toFinset ≠ ∅ then
        { likedIds := liked1, dislikedIds := disliked1, scrolledPastIds := scrolled1 }
      else
        { likedIds := liked1, dislikedIds := disliked1,
          scrolledPastIds := scrolled1 ∪ affected.toFinset }
  | none =>
      { likedIds := liked1, dislikedIds := disliked1, scrolledPastIds := scrolled1 }

/-- A JSON scalar as the feedback route sees it; an absent key reads as
`JVal.null` (Python `None`). -/
inductive JVal where
  | null
  | str (s : String)
  | int (n : Int)
deriving Repr, DecidableEq

/-- Python truthiness of the modelled JSON scalars: `None`, `''` and `0` are
falsy. -/
def truthy : JVal → Bool
  | JVal.null => false
  | JVal.str s => !(s == "")
  | JVal.int n => !(n == 0)

/-- Responses of the feedback route. -/
inductive FeedbackResponse where
  | missingData
  | internalError
  | success (profile : ProfileState) (affected : List Int)
deriving DecidableEq

/-- Serialisation of the updated profile for the upsert (`list(set)` order is
arbitrary; a canonical ascending order is chosen). -/
def storedOfState (s : ProfileState) : StoredProfile :=
  { likedIds := s.likedIds,
    dislikedIds := s.dislikedIds.sort (· ≤ ·),
    scrolledPastIds := s.scrolledPastIds.sort (· ≤ ·) }

/-- `handle_feedback` of `api2.py` (lines 254-284): validate by Python
truthiness (`if not all([user_id, anime_id, reason])`) and only then touch the
store.  `related` abstracts `get_related_anime_ids` (a read of the `animes`
table); `db` is the `user_taste_profiles` table keyed by user id.  Ill-typed
but truthy fields surface as the route's internal error. -/
def handle_feedback_route (related : Int → List Int)
    (db : Int → Option StoredProfile) (userId animeId reason : JVal) :
    FeedbackResponse × (Int → Option StoredProfile) :=
  if truthy userId && truthy animeId && truthy reason then
    match userId, animeId, reason with
    | JVal.int u, JVal.int a, JVal.str r =>
        let affected := related a
        let profile := (db u).getD { likedIds := [], dislikedIds := [], scrolledPastIds := [] }
        let updated := handle_feedback_update affected profile (parseReason r)
        (FeedbackResponse.success updated affected,
         fun k => if k = u then some (storedOfState updated) else db k)
    | _, _, _ => (FeedbackResponse.internalError, db)
  else (FeedbackResponse.missingData, db)

/-- One of the falsy request-field shapes named by claim C10: absent/`None`
(`null`), the empty string, or the integer `0`. -/
def isMissingField (v : JVal) : Prop :=
  v = JVal.null ∨ v = JVal.str "" ∨ v = JVal.int 0

/-! ### Concrete fixtures used by the witnesses and counterexamples -/

/-- A three-row item table: ids 1, 2, 3 with one-dimensional feature vectors
`[1]`, `[2]`, `[3]`, all with a promo link and no explicit genre. -/
def itemA : Item :=
  { animeId := 1, title := some "A", titleEnglish := none,
    genreList := some ["Action", "Drama"], studio := some "S1",
    promoLink := some "p", meanScore := some 7, overalRank := some 2, vector := [1] }

def itemB : Item :=
  { animeId := 2, title := some "B", titleEnglish := none,
    genreList := some ["Action"], studio := some "S1",
    promoLink := some "p", meanScore := some 8, overalRank := some 1, vector := [2] }

def itemC : Item :=
  { animeId := 3, title := some "C", titleEnglish := none,
    genreList := some ["Comedy"], studio := some "S2",
    promoLink := some "p", meanScore := none, overalRank := some 3, vector := [3] }

def store1 : Store := [itemA, itemB, itemC]

/-- A degenerate learned model: scores every feature vector 0. -/
def pred0 : List Rat → Rat := fun _ => 0

/-- Dot product of two vectors. -/
def dotProd (u v : List Rat) : Rat :=
  (List.zipWith (· * ·) u v).sum

/-- Square root on the rationals, computed on numerator and denominator with
the integer square root; it is the exact square root whenever numerator and
denominator are both perfect squares (in particular `ratSqrt 1 = 1`), which
the session-boost counterexample certifies for every norm it touches. -/
def ratSqrt (q : Rat) : Rat :=
  (Nat.sqrt q.num.toNat : Rat) / (Nat.sqrt q.den : Rat)

/-- Cosine similarity, instantiating the `sim` black box with what
`sklearn.metrics.pairwise.cosine_similarity` computes: the dot product over
the product of the Euclidean norms, and 0 when either vector is zero
(sklearn's `normalize` leaves zero rows zero, as the spec requires).  On
inputs whose squared norms are perfect squares — every input the
counterexample applies it to has squared norm exactly 1 — this is the true
cosine. -/
def cosineSim (u v : List Rat) : Rat :=
  if dotProd u u = 0 ∨ dotProd v v = 0 then 0
  else dotProd u v / (ratSqrt (dotProd u u) * ratSqrt (dotProd v v))

/-- A stored profile that has diverged from the request's stated likes:
the persisted `liked_ids` is `[2]`. -/
def profB : StoredProfile := { likedIds := [2], dislikedIds := [], scrolledPastIds := [] }

/-- A new-session request whose stated likes resolve to item 1. -/
def req1 : ReelRequest :=
  { isNewSession := true, statedLikedIds := [1], seenAnimeIds := [],
    allowExplicit := false, genresFilter := [] }

/-- A request with a non-empty genre filter, for the pool-filter witness. -/
def reqG : ReelRequest :=
  { isNewSession := false, statedLikedIds := [1], seenAnimeIds := [],
    allowExplicit := false, genresFilter := ["Action"] }

/-- A non-trivial prior profile for the feedback witnesses. -/
def prof4 : StoredProfile :=
  { likedIds := [4, 9, 4], dislikedIds := [5], scrolledPastIds := [4, 6] }

/-- A second table for the session-boost counterexample: ids 1, 2, 3 with
two-dimensional *unit-norm* feature vectors `[3/5, 4/5]`, `[0, 1]`, `[1, 0]`,
so every cosine the booster computes is a plain rational dot product. -/
def itemD : Item :=
  { animeId := 1, title := some "D", titleEnglish := none,
    genreList := some [], studio := none,
    promoLink := some "p", meanScore := none, overalRank := some 1, vector := [3/5, 4/5] }

def itemE : Item :=
  { animeId := 2, title := some "E", titleEnglish := none,
    genreList := some [], studio := none,
    promoLink := some "p", meanScore := none, overalRank := some 2, vector := [0, 1] }

def itemF : Item :=
  { animeId := 3, title := some "F", titleEnglish := none,
    genreList := some [], studio := none,
    promoLink := some "p", meanScore := none, overalRank := some 3, vector := [1, 0] }

def store2 : Store := [itemD, itemE, itemF]

/-- A stored profile, for the counterexample, that has diverged from the
request's stated likes: the persisted `liked_ids` is `[2]`. -/
def profE : StoredProfile := { likedIds := [2], dislikedIds := [], scrolledPastIds := [] }

/-- A new-session request whose stated likes resolve to item 1 of `store2`. -/
def req2 : ReelRequest :=
  { isNewSession := true, statedLikedIds := [1], seenAnimeIds := [],
    allowExplicit := false, genresFilter := [] }

/-! ### Helper lemmas about the embedded operations -/

theorem getD_vecAdd (a b : List Rat) (j : Nat) (ha : j < a.length) (hb : j < b.length) :
    (vecAdd a b).getD j 0 = a.getD j 0 + b.getD j 0 := by
  have hl : j < (vecAdd a b).length := by
    simp only [vecAdd, List.length_zipWith]
    omega
  rw [List.getD_eq_getElem _ _ hl, List.getD_eq_getElem _ _ ha, List.getD_eq_getElem _ _ hb]
  simp [vecAdd]

theorem vecSum_length (D : Nat) :
    ∀ vs : List (List Rat), vs ≠ [] → (∀ v ∈ vs, v.length = D) →
      (vecSum vs).length = D
  | [], h, _ => absurd rfl h
  | [v], _, hD => by
      simp only [vecSum]
      exact hD v (by simp)
  | v :: w :: vs, _, hD => by
      have ih := vecSum_length D (w :: vs) (by simp)
        (fun x hx => hD x (List.mem_cons_of_mem v hx))
      have hv := hD v (by simp)
      simp only [vecSum, vecAdd, List.length_zipWith, ih, hv]
      omega

theorem vecSum_getD (D : Nat) :
    ∀ vs : List (List Rat), vs ≠ [] → (∀ v ∈ vs, v.length = D) →
      ∀ j, j < D → (vecSum vs).getD j 0 = (vs.map (fun v => v.getD j 0)).sum
  | [], h, _ => absurd rfl h
  | [v], _, _ => by
      intro j _
      simp [vecSum]
  | v :: w :: vs, _, hD => by
      intro j hj
      have hv : j < v.length := by rw [hD v (by simp)]; exact hj
      have hs : j < (vecSum (w :: vs)).length := by
        rw [vecSum_length D (w :: vs) (by simp) (fun x hx => hD x (List.mem_cons_of_mem v hx))]
        exact hj
      have ih := vecSum_getD D (w :: vs) (by simp)
        (fun x hx => hD x (List.mem_cons_of_mem v hx)) j hj
      simp only [vecSum]
      rw [getD_vecAdd _ _ j hv hs, ih]
      simp

theorem vecMean_eq_spec (D : Nat) (vs : List (List Rat)) (hne : vs ≠ [])
    (hD : ∀ v ∈ vs, v.length = D) : vecMean vs = specElementwiseMean vs D := by
  have hlen : (vecMean vs).length = D := by
    simp only [vecMean, List.length_map]
    exact vecSum_length D vs hne hD
  have hlen2 : (specElementwiseMean vs D).length = D := by
    simp [specElementwiseMean]
  apply List.ext_getElem (by rw [hlen, hlen2])
  intro j h1 h2
  have hjD : j < D := by rw [hlen] at h1; exact h1
  have hjs : j < (vecSum vs).length := by
    rw [vecSum_length D vs hne hD]; exact hjD
  simp only [vecMean, specElementwiseMean, List.getElem_map, List.getElem_range]
  rw [← List.getD_eq_getElem (vecSum vs) 0 hjs, vecSum_getD D vs hne hD j hjD]

theorem vecMean_length (D : Nat) (vs : List (List Rat)) (hne : vs ≠ [])
    (hD : ∀ v ∈ vs, v.length = D) : (vecMean vs).length = D := by
  simp only [vecMean, List.length_map]
  exact vecSum_length D vs hne hD

theorem idToIndex_some (store : Store) (i : Int) :
    ∀ idx, idToIndex store i = some idx →
      idx < store.length ∧ (dfRow store idx).animeId = i := by
  induction store with
  | nil => intro idx h; simp [idToIndex] at h
  | cons it rest ih =>
    intro idx h
    by_cases hc : it.animeId = i
    · simp [idToIndex, hc] at h
      subst h
      simpa [dfRow] using hc
    · simp [idToIndex, hc] at h
      obtain ⟨j, hj, hji⟩ := h
      obtain ⟨hlt, hrow⟩ := ih j hj
      subst hji
      refine ⟨by simpa using hlt, ?_⟩
      simpa [dfRow] using hrow

theorem dfRow_mem (store : Store) (idx : Nat) (h : idx < store.length) :
    dfRow store idx ∈ store := by
  rw [dfRow, List.getD_eq_getElem store defaultItem h]
  exact List.getElem_mem h

theorem mem_predict_scores (store : Store) (predict : List Rat → Rat)
    (candidateIds : List Int) (pv : List Rat) (tg : List String)
    (sp : Option String → Rat) (limit : Option Nat) (r : Rec)
    (hr : r ∈ predict_scores_for_candidates store predict candidateIds pv tg sp limit) :
    ∃ idx, r.item.animeId ∈ candidateIds ∧
      idToIndex store r.item.animeId = some idx ∧
      r.item = dfRow store idx ∧
      r.score = predict (combinedFeatures store pv tg sp idx) := by
  simp only [predict_scores_for_candidates] at hr
  have hr2 : r ∈ List.insertionSort relScore
      ((candidateIds.filter (fun i => (idToIndex store i).isSome)).map (fun i =>
        ({ item := dfRow store ((idToIndex store i).getD 0),
           score := predict (combinedFeatures store pv tg sp ((idToIndex store i).getD 0)) } : Rec))) := by
    rcases limit with _ | n
    · exact hr
    · dsimp only at hr
      by_cases hn : 0 < n
      · rw [if_pos hn] at hr
        exact (List.take_sublist n _).subset hr
      · rw [if_neg hn] at hr
        exact hr
  have hr3 := (List.mem_insertionSort relScore).1 hr2
  obtain ⟨i, hi, hmk⟩ := List.mem_map.1 hr3
  obtain ⟨hic, his⟩ := List.mem_filter.1 hi
  have hsome : ∃ idx, idToIndex store i = some idx := by
    cases hx : idToIndex store i
    · rw [hx] at his; simp at his
    · exact ⟨_, rfl⟩
  obtain ⟨idx, hidx⟩ := hsome
  have hrow := (idToIndex_some store i idx hidx).2
  refine ⟨idx, ?_, ?_, ?_, ?_⟩
  · rw [← hmk]
    simpa [hidx, hrow] using hic
  · rw [← hmk]
    simpa [hidx, hrow] using hidx
  · rw [← hmk]
    simp [hidx]
  · rw [← hmk]
    simp [hidx]

theorem predict_scores_sorted (store : Store) (predict : List Rat → Rat)
    (candidateIds : List Int) (pv : List Rat) (tg : List String)
    (sp : Option String → Rat) (limit : Option Nat) :
    List.Sorted relScore
      (predict_scores_for_candidates store predict candidateIds pv tg sp limit) := by
  simp only [predict_scores_for_candidates]
  rcases limit with _ | n
  · exact List.sorted_insertionSort relScore _
  · dsimp only
    by_cases hn : 0 < n
    · rw [if_pos hn]
      exact List.Pairwise.sublist (List.take_sublist n _) (List.sorted_insertionSort relScore _)
    · rw [if_neg hn]
      exact List.sorted_insertionSort relScore _

theorem predict_scores_length (store : Store) (predict : List Rat → Rat)
    (candidateIds : List Int) (pv : List Rat) (tg : List String)
    (sp : Option String → Rat) (limit : Option Nat) :
    (predict_scores_for_candidates store predict candidateIds pv tg sp limit).length
      ≤ candidateIds.length := by
  simp only [predict_scores_for_candidates]
  have hbase : (List.insertionSort relScore
      ((candidateIds.filter (fun i => (idToIndex store i).isSome)).map (fun i =>
        ({ item := dfRow store ((idToIndex store i).getD 0),
           score := predict (combinedFeatures store pv tg sp ((idToIndex store i).getD 0)) } : Rec)))).length
      ≤ candidateIds.length := by
    rw [List.length_insertionSort, List.length_map]
    exact List.length_filter_le _ _
  rcases limit with _ | n
  · exact hbase
  · dsimp only
    by_cases hn : 0 < n
    · rw [if_pos hn]
      exact le_trans (by simpa using List.length_take_le n _) hbase
    · rw [if_neg hn]
      exact hbase

/-! ### Claim theorems -/

/-- Claim C10: for every feedback request in which `user_id`, the item id or
`reason` is absent, `None`, an empty string, or the integer `0` (including the
well-formed item id `0`), the feedback handler returns the client error
response `Missing data` before any store read or write, so the stored taste
profile (the whole profile table) is unchanged. -/
theorem feedback_missing_data_short_circuit (related : Int → List Int)
    (db : Int → Option StoredProfile) (userId animeId reason : JVal)
    (h : isMissingField userId ∨ isMissingField animeId ∨ isMissingField reason) :
    handle_feedback_route related db userId animeId reason =
      (FeedbackResponse.missingData, db) := by
  have ht : (truthy userId && truthy animeId && truthy reason) = false := by
    rcases h with h | h | h <;> rcases h with h | h | h <;> subst h <;> simp [truthy]
  simp [handle_feedback_route, ht]

/-- Witness for C10: a request whose item id is the well-formed integer `0`
is rejected with `Missing data` and leaves the (empty) profile table as is. -/
theorem feedback_missing_data_short_circuit_witness :
    handle_feedback_route (fun _ => [0]) (fun _ => none) (JVal.int 5) (JVal.int 0)
      (JVal.str "like_button") = (FeedbackResponse.missingData, fun _ => none) :=
  feedback_missing_data_short_circuit (fun _ => [0]) (fun _ => none) (JVal.int 5)
    (JVal.int 0) (JVal.str "like_button") (Or.inr (Or.inl (Or.inr (Or.inr rfl))))

/-- Claim C4: `super_like_button` on an item whose related family is
`family`, starting from an empty prior taste profile, yields `liked_ids`
holding exactly 3 copies of each family id (and no other id), while
`disliked_ids` and `scrolled_past_ids` stay empty. -/
theorem super_like_triple_weight (family : List Int) (hnd : family.Nodup) :
    (∀ i ∈ family,
      (handle_feedback_update family
        { likedIds := [], dislikedIds := [], scrolledPastIds := [] }
        (some Reason.super_like_button)).likedIds.count i = 3) ∧
    (∀ i : Int, i ∉ family →
      (handle_feedback_update family
        { likedIds := [], dislikedIds := [], scrolledPastIds := [] }
        (some Reason.super_like_button)).likedIds.count i = 0) ∧
    (handle_feedback_update family
      { likedIds := [], dislikedIds := [], scrolledPastIds := [] }
      (some Reason.super_like_button)).dislikedIds = ∅ ∧
    (handle_feedback_update family
      { likedIds := [], dislikedIds := [], scrolledPastIds := [] }
      (some Reason.super_like_button)).scrolledPastIds = ∅ := by
  refine ⟨?_, ?_, ?_, ?_⟩
  · intro i hi
    simp [handle_feedback_update, List.count_append,
      List.count_eq_one_of_mem hnd hi]
  · intro i hi
    simp [handle_feedback_update, List.count_append,
      List.count_eq_zero_of_not_mem hi]
  · simp [handle_feedback_update]
  · simp [handle_feedback_update]

/-- Witness for C4: super-liking the two-item family `[7, 8]` from an empty
profile puts exactly 3 copies of id 7 into `liked_ids`. -/
theorem super_like_triple_weight_witness :
    (handle_feedback_update [7, 8]
      { likedIds := [], dislikedIds := [], scrolledPastIds := [] }
      (some Reason.super_like_button)).likedIds.count 7 = 3 :=
  (super_like_triple_weight [7, 8] (by decide)).1 7 (by decide)

/-- Claim C5: after `not_interested_button` feedback on a family, for any
prior profile, every family id is in `disliked_ids` and in neither
`liked_ids` nor `scrolled_past_ids`. -/
theorem not_interested_moves_family (family : List Int) (profile : StoredProfile)
    (i : Int) (hi : i ∈ family) :
    i ∈ (handle_feedback_update family profile
        (some Reason.not_interested_button)).dislikedIds ∧
    i ∉ (handle_feedback_update family profile
        (some Reason.not_interested_button)).likedIds ∧
    i ∉ (handle_feedback_update family profile
        (some Reason.not_interested_button)).scrolledPastIds := by
  refine ⟨?_, ?_, ?_⟩
  · simp [handle_feedback_update, hi]
  · intro hmem
    simp only [handle_feedback_update] at hmem
    have := (List.mem_filter.1 hmem).2
    simp [hi] at this
  · simp [handle_feedback_update, hi]

/-- Witness for C5: `not_interested_button` on family `[4]` over a prior
profile that had 4 liked, disliked-adjacent and scrolled-past. -/
theorem not_interested_moves_family_witness :
    4 ∈ (handle_feedback_update [4] prof4
        (some Reason.not_interested_button)).dislikedIds ∧
    4 ∉ (handle_feedback_update [4] prof4
        (some Reason.not_interested_button)).likedIds ∧
    4 ∉ (handle_feedback_update [4] prof4
        (some Reason.not_interested_button)).scrolledPastIds :=
  not_interested_moves_family [4] prof4 4 (by decide)

/-- Claim C9: a feedback event leaves every id outside the resolved family
untouched: its multiplicity in `liked_ids`, its membership in `disliked_ids`
and in `scrolled_past_ids` are unchanged, and the non-family entries of
`liked_ids` keep their relative order (the filtered sublists coincide). -/
theorem feedback_frame_effect (family : List Int) (profile : StoredProfile)
    (reason : Option Reason) (x : Int) (hx : x ∉ family) :
    (handle_feedback_update family profile reason).likedIds.count x =
      profile.likedIds.count x ∧
    (x ∈ (handle_feedback_update family profile reason).dislikedIds ↔
      x ∈ profile.dislikedIds) ∧
    (x ∈ (handle_feedback_update family profile reason).scrolledPastIds ↔
      x ∈ profile.scrolledPastIds) ∧
    (handle_feedback_update family profile reason).likedIds.filter
        (fun i => !(decide (i ∈ family))) =
      profile.likedIds.filter (fun i => !(decide (i ∈ family))) := by
  have hpx : (fun i => !(decide (i ∈ family))) x = true := by simp [hx]
  have hc1 : (profile.likedIds.filter (fun i => !(decide (i ∈ family)))).count x =
      profile.likedIds.count x := List.count_filter hpx
  have hidem : (profile.likedIds.filter (fun i => !(decide (i ∈ family)))).filter
      (fun i => !(decide (i ∈ family))) =
      profile.likedIds.filter (fun i => !(decide (i ∈ family))) := by
    simp [List.filter_filter]
  have hfamc : ∀ l : List Int, (∀ a ∈ l, a ∈ family) → l.count x = 0 := by
    intro l hl
    exact List.count_eq_zero_of_not_mem (fun hm => hx (hl x hm))
  have hfamf : ∀ l : List Int, (∀ a ∈ l, a ∈ family) →
      l.filter (fun i => !(decide (i ∈ family))) = [] := by
    intro l hl
    rw [List.filter_eq_nil_iff]
    intro a ha
    simp [hl a ha]
  have hfam3 : ∀ a ∈ family ++ family ++ family, a ∈ family := by
    intro a ha
    simpa using ha
  have hdis : x ∈ profile.dislikedIds.toFinset \ family.toFinset ↔
      x ∈ profile.dislikedIds := by simp [hx]
  have hscr : x ∈ profile.scrolledPastIds.toFinset \ family.toFinset ↔
      x ∈ profile.scrolledPastIds := by simp [hx]
  rcases reason with _ | r
  · exact ⟨hc1, hdis, hscr, hidem⟩
  · cases r
    case like_button =>
      refine ⟨?_, hdis, hscr, ?_⟩
      · simp [handle_feedback_update, List.count_append, hc1,
          List.count_eq_zero_of_not_mem hx]
      · simp [handle_feedback_update, List.filter_append, hidem,
          hfamf family (fun a ha => ha)]
    case save_to_watchlist =>
      refine ⟨?_, hdis, hscr, ?_⟩
      · simp [handle_feedback_update, List.count_append, hc1,
          List.count_eq_zero_of_not_mem hx]
      · simp [handle_feedback_update, List.filter_append, hidem,
          hfamf family (fun a ha => ha)]
    case watched_10_seconds =>
      refine ⟨?_, hdis, hscr, ?_⟩
      · simp [handle_feedback_update, List.count_append, hc1,
          List.count_eq_zero_of_not_mem hx]
      · simp [handle_feedback_update, List.filter_append, hidem,
          hfamf family (fun a ha => ha)]
    case super_like_button =>
      refine ⟨?_, hdis, hscr, ?_⟩
      · simp [handle_feedback_update, List.count_append, hc1,
          List.count_eq_zero_of_not_mem hx]
      · simp [handle_feedback_update, List.filter_append, hidem, hfamf _ hfam3]
    case not_interested_button =>
      refine ⟨hc1, ?_, hscr, hidem⟩
      simp [handle_feedback_update, hx, hdis]
    case scrolled_past =>
      simp only [handle_feedback_update]
      split
      · exact ⟨hc1, hdis, hscr, hidem⟩
      · refine ⟨hc1, hdis, ?_, hidem⟩
        simp [hx, hscr]

/-- Witness for C9: a `super_like_button` event on family `[4]` leaves id 9
(outside the family) with its original single occurrence in `liked_ids`. -/
theorem feedback_frame_effect_witness :
    (handle_feedback_update [4] prof4 (some Reason.super_like_button)).likedIds.count 9 =
      prof4.likedIds.count 9 :=
  (feedback_frame_effect [4] prof4 (some Reason.super_like_button) 9 (by decide)).1

/-- Permutation invariance of the spec-side element-wise mean. -/
theorem specElementwiseMean_perm (vs1 vs2 : List (List Rat)) (h : vs1.Perm vs2)
    (d : Nat) : specElementwiseMean vs1 d = specElementwiseMean vs2 d := by
  have hfun : (fun j => ((vs1.map (fun v => v.getD j 0)).sum) / (vs1.length : Rat)) =
      (fun j => ((vs2.map (fun v => v.getD j 0)).sum) / (vs2.length : Rat)) := by
    funext j
    rw [(h.map (fun v => v.getD j 0)).sum_eq, h.length_eq]
  simp only [specElementwiseMean, hfun]

/-- Claim C2: for a non-empty liked-id list fully present in the store, the
taste-profile builder's `profile_vector` is the element-wise arithmetic mean
of the liked items' feature vectors, its dimension is the store's vector
dimension `D`, and permuting the liked-id list changes neither
`profile_vector` nor `studio_prefs`. -/
theorem taste_profile_mean (store : Store) (D : Nat)
    (hD : ∀ it ∈ store, it.vector.length = D)
    (ids ids2 : List Int) (hne : ids ≠ [])
    (hmem : ∀ i ∈ ids, (idToIndex store i).isSome)
    (hperm : ids2.Perm ids) :
    (build_user_profile_from_indices store (ids.filterMap (idToIndex store))).1 =
      specElementwiseMean ((ids.filterMap (idToIndex store)).map (vecAt store)) D ∧
    (build_user_profile_from_indices store (ids.filterMap (idToIndex store))).1.length = D ∧
    (build_user_profile_from_indices store (ids2.filterMap (idToIndex store))).1 =
      (build_user_profile_from_indices store (ids.filterMap (idToIndex store))).1 ∧
    (build_user_profile_from_indices store (ids2.filterMap (idToIndex store))).2.2 =
      (build_user_profile_from_indices store (ids.filterMap (idToIndex store))).2.2 := by
  have hidxD : ∀ indices : List Nat,
      (∀ idx ∈ indices, ∃ i, idToIndex store i = some idx) →
      ∀ v ∈ indices.map (vecAt store), v.length = D := by
    intro indices hall v hv
    obtain ⟨idx, hidx, hveq⟩ := List.mem_map.1 hv
    obtain ⟨i, hi⟩ := hall idx hidx
    obtain ⟨hlt, _⟩ := idToIndex_some store i idx hi
    rw [← hveq]
    exact hD _ (dfRow_mem store idx hlt)
  have hsrc : ∀ idx ∈ ids.filterMap (idToIndex store), ∃ i, idToIndex store i = some idx := by
    intro idx hidx
    obtain ⟨i, _, hi⟩ := List.mem_filterMap.1 hidx
    exact ⟨i, hi⟩
  have hsrc2 : ∀ idx ∈ ids2.filterMap (idToIndex store), ∃ i, idToIndex store i = some idx := by
    intro idx hidx
    obtain ⟨i, _, hi⟩ := List.mem_filterMap.1 hidx
    exact ⟨i, hi⟩
  have hpermIdx : (ids2.filterMap (idToIndex store)).Perm (ids.filterMap (idToIndex store)) :=
    hperm.filterMap (idToIndex store)
  have hne1 : ids.filterMap (idToIndex store) ≠ [] := by
    cases hids : ids with
    | nil => exact absurd hids hne
    | cons a l =>
      have ha := hmem a (by rw [hids]; exact List.mem_cons_self a l)
      cases hio : idToIndex store a with
      | none => rw [hio] at ha; simp at ha
      | some idx => simp [List.filterMap_cons, hio]
  have hne2 : ids2.filterMap (idToIndex store) ≠ [] := by
    intro h
    exact hne1 (List.Perm.eq_nil (hpermIdx.symm.trans (h ▸ List.Perm.refl _)))
  have hmne1 : (ids.filterMap (idToIndex store)).map (vecAt store) ≠ [] := by
    simpa [List.map_eq_nil_iff] using hne1
  have hmne2 : (ids2.filterMap (idToIndex store)).map (vecAt store) ≠ [] := by
    simpa [List.map_eq_nil_iff] using hne2
  have hspec1 : (build_user_profile_from_indices store (ids.filterMap (idToIndex store))).1 =
      specElementwiseMean ((ids.filterMap (idToIndex store)).map (vecAt store)) D := by
    simp only [build_user_profile_from_indices]
    exact vecMean_eq_spec D _ hmne1 (hidxD _ hsrc)
  have hspec2 : (build_user_profile_from_indices store (ids2.filterMap (idToIndex store))).1 =
      specElementwiseMean ((ids2.filterMap (idToIndex store)).map (vecAt store)) D := by
    simp only [build_user_profile_from_indices]
    exact vecMean_eq_spec D _ hmne2 (hidxD _ hsrc2)
  refine ⟨hspec1, ?_, ?_, ?_⟩
  · simp only [build_user_profile_from_indices]
    exact vecMean_length D _ hmne1 (hidxD _ hsrc)
  · rw [hspec1, hspec2]
    exact specElementwiseMean_perm _ _ (hpermIdx.map (vecAt store)) D
  · simp only [build_user_profile_from_indices]
    funext s
    cases s with
    | none => rfl
    | some name =>
      simp only [studioPrefsOf]
      rw [hpermIdx.countP_eq, hpermIdx.length_eq]

/-- Witness for C2: over the three-row fixture store (vector dimension 1),
the profile built from liked ids `[1, 2]` has a one-dimensional
`profile_vector`, and the permutation `[2, 1]` yields the same vector. -/
theorem taste_profile_mean_witness :
    (build_user_profile_from_indices store1 ([1, 2].filterMap (idToIndex store1))).1.length = 1 ∧
    (build_user_profile_from_indices store1 ([2, 1].filterMap (idToIndex store1))).1 =
      (build_user_profile_from_indices store1 ([1, 2].filterMap (idToIndex store1))).1 :=
  ⟨(taste_profile_mean store1 1 (by decide) [1, 2] [2, 1] (by decide) (by decide)
      (by decide)).2.1,
   (taste_profile_mean store1 1 (by decide) [1, 2] [2, 1] (by decide) (by decide)
      (by decide)).2.2.1⟩

/-- Every item surviving the candidate-pool filter with a non-empty genre
filter carries all requested genres. -/
theorem mem_candidatePoolFilter_genres (store : Store) (ae : Bool)
    (gf : List String) (hgf : gf ≠ []) (it : Item)
    (hit : it ∈ candidatePoolFilter store ae gf) :
    ∀ g ∈ gf, g ∈ it.genreList.getD [] := by
  intro g hg
  have hgfe : ¬(gf.isEmpty = true) := by
    simp only [List.isEmpty_iff]
    exact hgf
  simp only [candidatePoolFilter, if_neg hgfe] at hit
  have h2 := (List.mem_filter.1 hit).2
  cases hgl : it.genreList with
  | none =>
    rw [hgl] at h2
    simp at h2
  | some gs =>
    rw [hgl] at h2
    have h4 : ∀ x ∈ gf, x ∈ gs := by simpa using h2
    simpa using h4 g hg

/-- Claim C3: with a non-empty `genres_filter`, every item kept in the
candidate pool has a genre set that is a superset of the filter (AND
semantics), both for the pool the personalized path scores (every candidate
id names a pool-filter survivor) and for the Fallback Ranker's output. -/
theorem genre_filter_and_semantics (store : Store) (ae : Bool) (gf : List String)
    (excl : Finset Int) (storedProfile : Option StoredProfile) (req : ReelRequest)
    (hgf : gf ≠ []) (hreq : req.genresFilter = gf) :
    (∀ it ∈ candidatePoolFilter store ae gf, ∀ g ∈ gf, g ∈ it.genreList.getD []) ∧
    (∀ r ∈ get_fallback_recommendations store excl ae gf,
      ∀ g ∈ gf, g ∈ r.item.genreList.getD []) ∧
    (∀ i ∈ reelCandidateIds store storedProfile req,
      ∃ it ∈ candidatePoolFilter store req.allowExplicit gf, it.animeId = i) := by
  refine ⟨fun it hit => mem_candidatePoolFilter_genres store ae gf hgf it hit, ?_, ?_⟩
  · intro r hr
    simp only [get_fallback_recommendations] at hr
    obtain ⟨it, htake, hmk⟩ := List.mem_map.1 hr
    have hsort := (List.take_sublist 15 _).subset htake
    have hpool2 := (List.mem_insertionSort relRank).1 hsort
    have hpool := (List.mem_filter.1 hpool2).1
    have := mem_candidatePoolFilter_genres store ae gf hgf it hpool
    rw [← hmk]
    exact this
  · intro i hi
    simp only [reelCandidateIds] at hi
    have hmap := (List.mem_filter.1 hi).1
    obtain ⟨it, hpool, hid⟩ := List.mem_map.1 hmap
    rw [hreq] at hpool
    exact ⟨it, hpool, hid⟩

/-- Witness for C3: requesting the single genre `Action` over the fixture
store keeps item 1, whose genre list indeed contains `Action`. -/
theorem genre_filter_and_semantics_witness :
    "Action" ∈ itemA.genreList.getD [] :=
  (genre_filter_and_semantics store1 false ["Action"] ∅ none reqG (by decide)
    rfl).1 itemA (by decide) "Action" (by decide)

/-- Claim C6 (amended): the scorer's output is sorted descending by score,
never longer than the candidate list, bounded by a *positive* limit when one
is given, and contains only input candidates that are present in the store
(absent candidates are silently skipped).  The original claim's bound for a
given limit of 0 fails: see the counterexample. -/
theorem scorer_output_contract (store : Store) (predict : List Rat → Rat)
    (candidateIds : List Int) (pv : List Rat) (tg : List String)
    (sp : Option String → Rat) (limit : Option Nat) :
    List.Sorted relScore
      (predict_scores_for_candidates store predict candidateIds pv tg sp limit) ∧
    (predict_scores_for_candidates store predict candidateIds pv tg sp limit).length
      ≤ candidateIds.length ∧
    (∀ n, limit = some n → 0 < n →
      (predict_scores_for_candidates store predict candidateIds pv tg sp limit).length ≤ n) ∧
    (∀ r ∈ predict_scores_for_candidates store predict candidateIds pv tg sp limit,
      r.item.animeId ∈ candidateIds ∧ (idToIndex store r.item.animeId).isSome) := by
  refine ⟨predict_scores_sorted store predict candidateIds pv tg sp limit,
    predict_scores_length store predict candidateIds pv tg sp limit, ?_, ?_⟩
  · intro n hn hpos
    subst hn
    simp only [predict_scores_for_candidates]
    rw [if_pos hpos]
    exact List.length_take_le n _
  · intro r hr
    obtain ⟨idx, hc, hidx, _, _⟩ :=
      mem_predict_scores store predict candidateIds pv tg sp limit r hr
    exact ⟨hc, by rw [hidx]; rfl⟩

/-- Witness for C6: over the fixture store with candidates `[1, 2, 3]` and
limit 2, the scorer returns at most 2 recommendations. -/
theorem scorer_output_contract_witness :
    (predict_scores_for_candidates store1 pred0 [1, 2, 3] [] []
      (fun _ => 0) (some 2)).length ≤ 2 :=
  (scorer_output_contract store1 pred0 [1, 2, 3] [] [] (fun _ => 0)
    (some 2)).2.2.1 2 rfl (by decide)

/-- Counterexample for C6 as stated: a given limit of 0 is falsy in Python
(`if limit:`), so no truncation happens and the output exceeds the limit. -/
theorem scorer_limit_zero_counterexample :
    (predict_scores_for_candidates store1 pred0 [1] [] [] (fun _ => 0)
      (some 0)).length = 1 ∧ ¬(1 ≤ 0) := by
  decide

/-- Claim C7: each scored candidate's score is the model applied to the
concatenation of the user profile vector, the candidate's feature vector and
the two interaction features: `genre_match` — the count of the candidate's
genres among `top_genres`, divided by the fixed slot count 5 (0 when
`top_genres` is empty) — and the studio preference looked up at the
candidate's studio. -/
theorem scorer_combined_features (store : Store) (predict : List Rat → Rat)
    (candidateIds : List Int) (pv : List Rat) (tg : List String)
    (sp : Option String → Rat) (limit : Option Nat) (r : Rec)
    (hr : r ∈ predict_scores_for_candidates store predict candidateIds pv tg sp limit) :
    r.score = predict (pv ++ r.item.vector ++
      [(if tg ≠ [] then
          (((r.item.genreList.getD []).countP (fun g => decide (g ∈ tg)) : Nat) : Rat) / 5
        else 0),
       sp r.item.studio]) := by
  obtain ⟨idx, _, _, hitem, hscore⟩ :=
    mem_predict_scores store predict candidateIds pv tg sp limit r hr
  rw [hscore, hitem]
  rfl

/-- Witness for C7: the single scored candidate 1 of the fixture store gets
the model value of profile ⧺ item vector ⧺ the two interaction features. -/
theorem scorer_combined_features_witness :
    ({ item := itemA, score := (0 : Rat) } : Rec).score = pred0 ([] ++ itemA.vector ++
      [(if (["Action"] : List String) ≠ [] then
          ((itemA.genreList.getD []).countP (fun g => decide (g ∈ (["Action"] : List String))) : Rat) / 5
        else 0),
       (fun _ => (0 : Rat)) itemA.studio]) :=
  scorer_combined_features store1 pred0 [1] [] ["Action"] (fun _ => 0) (some 15)
    { item := itemA, score := (0 : Rat) } (by decide)

/-- Claim C8: the Fallback Ranker never returns an item from the exclusion
set, returns at most 15 items, its output is sorted by ascending static rank
(missing ranks ordered last, as `sort_values` places NaN), and each
recommendation is scored with the item's static `mean_score`, 0 when absent. -/
theorem fallback_ranker_contract (store : Store) (seen : Finset Int)
    (ae : Bool) (gf : List String) :
    (get_fallback_recommendations store seen ae gf).length ≤ 15 ∧
    (∀ r ∈ get_fallback_recommendations store seen ae gf, r.item.animeId ∉ seen) ∧
    List.Pairwise (fun a b : Rec => rankLe a.item.overalRank b.item.overalRank)
      (get_fallback_recommendations store seen ae gf) ∧
    (∀ r ∈ get_fallback_recommendations store seen ae gf,
      r.score = r.item.meanScore.getD 0) := by
  refine ⟨?_, ?_, ?_, ?_⟩
  · simp only [get_fallback_recommendations, List.length_map, List.length_take]
    exact min_le_left 15 _
  · intro r hr
    simp only [get_fallback_recommendations] at hr
    obtain ⟨it, htake, hmk⟩ := List.mem_map.1 hr
    have hsort := (List.take_sublist 15 _).subset htake
    have hpool2 := (List.mem_insertionSort relRank).1 hsort
    have hflt := (List.mem_filter.1 hpool2).2
    rw [← hmk]
    simpa using hflt
  · simp only [get_fallback_recommendations]
    apply (List.pairwise_map).2
    exact List.Pairwise.sublist (List.take_sublist 15 _)
      (List.sorted_insertionSort relRank _)
  · intro r hr
    simp only [get_fallback_recommendations] at hr
    obtain ⟨it, _, hmk⟩ := List.mem_map.1 hr
    rw [← hmk]

/-- Witness for C8: with item 2 excluded, the fixture fallback output never
contains id 2. -/
theorem fallback_ranker_contract_witness :
    ∀ r ∈ get_fallback_recommendations store1 {2} false [], r.item.animeId ∉ ({2} : Finset Int) :=
  (fallback_ranker_contract store1 {2} false []).2.1

/-- When every ranked recommendation's id resolves in the store to its own
row (as all scorer outputs do), the session-boost loop drops nothing and is a
plain map followed by the descending re-sort. -/
theorem sessionBoost_eq_map (store : Store) (sim : List Rat → List Rat → Rat)
    (itv : List Rat) (ranked : List Rec)
    (h : ∀ r ∈ ranked, ∃ idx, idToIndex store r.item.animeId = some idx ∧
      r.item = dfRow store idx) :
    sessionBoost store sim itv ranked =
      List.insertionSort relScore (ranked.map (fun r =>
        { r with score := r.score + sim itv r.item.vector * 5 })) := by
  simp only [sessionBoost]
  congr 1
  induction ranked with
  | nil => rfl
  | cons r rest ih =>
    obtain ⟨idx, hidx, hitem⟩ := h r (by simp)
    have hrest := ih (fun x hx => h x (List.mem_cons_of_mem r hx))
    rw [List.filterMap_cons, List.map_cons]
    rw [hidx]
    simp only [Option.isSome_some, if_pos]
    rw [hrest]
    have hvec : vecAt store ((some idx).getD 0) = r.item.vector := by
      rw [hitem]
      rfl
    rw [hvec]

/-- Claim C1 (amended): on a new-session request for a user whose *effective*
liked-id list — `reelEffectiveProfile`: the stored profile's `liked_ids` when
a persisted profile exists, otherwise the request's stated likes — resolves
to at least one store index, the session booster adds `similarity * 5.0` (the
similarity taken between each top recommendation's feature vector and the
mean vector of that effective liked-id list) to each model score and re-sorts
descending.  The original claim's "freshly computed mean of this request's
stated liked items" is wrong whenever a stored profile exists: `generate_reel`
reuses the stored `liked_ids` for the boost vector. -/
theorem session_booster_amended (store : Store) (predict : List Rat → Rat)
    (sim : List Rat → List Rat → Rat) (storedProfile : Option StoredProfile)
    (req : ReelRequest) (hNew : req.isNewSession = true)
    (hIdx : (reelEffectiveProfile storedProfile req).likedIds.filterMap (idToIndex store) ≠ []) :
    generate_reel_core store predict sim storedProfile req =
      (List.insertionSort relScore
        ((predict_scores_for_candidates store predict (reelCandidateIds store storedProfile req)
            (build_user_profile_from_indices store ((reelEffectiveProfile storedProfile req).likedIds.filterMap (idToIndex store))).1
            (build_user_profile_from_indices store ((reelEffectiveProfile storedProfile req).likedIds.filterMap (idToIndex store))).2.1
            (build_user_profile_from_indices store ((reelEffectiveProfile storedProfile req).likedIds.filterMap (idToIndex store))).2.2
            (some 15)).map (fun r =>
          { r with score := r.score + sim (vecMean (((reelEffectiveProfile storedProfile req).likedIds.filterMap (idToIndex store)).map (vecAt store))) r.item.vector * 5 })),
       RecType.personalized_model) := by
  have hln : (reelEffectiveProfile storedProfile req).likedIds ≠ [] := by
    intro h
    apply hIdx
    rw [h]
    rfl
  have hle : (reelEffectiveProfile storedProfile req).likedIds.isEmpty = false := by
    cases hL : (reelEffectiveProfile storedProfile req).likedIds with
    | nil => exact absurd hL hln
    | cons a l => rfl
  have hie : ((reelEffectiveProfile storedProfile req).likedIds.filterMap
      (idToIndex store)).isEmpty = false := by
    cases hL : (reelEffectiveProfile storedProfile req).likedIds.filterMap (idToIndex store) with
    | nil => exact absurd hL hIdx
    | cons a l => rfl
  simp only [generate_reel_core, hle, hie, hNew,
    Bool.not_false, Bool.and_self, if_false, Bool.false_eq_true, if_true]
  rw [sessionBoost_eq_map]
  intro r hr
  obtain ⟨idx, _, hidx, hitem, _⟩ := mem_predict_scores store predict
    (reelCandidateIds store storedProfile req)
    (build_user_profile_from_indices store ((reelEffectiveProfile storedProfile req).likedIds.filterMap (idToIndex store))).1
    (build_user_profile_from_indices store ((reelEffectiveProfile storedProfile req).likedIds.filterMap (idToIndex store))).2.1
    (build_user_profile_from_indices store ((reelEffectiveProfile storedProfile req).likedIds.filterMap (idToIndex store))).2.2
    (some 15) r hr
  exact ⟨idx, hidx, hitem⟩

/-- Witness for the amended C1, exercising both branches of the effective
profile with the cosine `sim`: the new-session request over the stored
profile `[2]`, and the same request with no persisted profile, both go down
the boosted personalized path. -/
theorem session_booster_amended_witness :
    (req1.isNewSession = true ∧
      (reelEffectiveProfile (some profB) req1).likedIds.filterMap (idToIndex store1) ≠ [] ∧
      (reelEffectiveProfile none req1).likedIds.filterMap (idToIndex store1) ≠ []) ∧
    (generate_reel_core store1 pred0 cosineSim (some profB) req1).2 =
      RecType.personalized_model ∧
    (generate_reel_core store1 pred0 cosineSim none req1).2 =
      RecType.personalized_model :=
  ⟨⟨rfl, by decide, by decide⟩,
   congrArg Prod.snd
     (session_booster_amended store1 pred0 cosineSim (some profB) req1 rfl (by decide)),
   congrArg Prod.snd
     (session_booster_amended store1 pred0 cosineSim none req1 rfl (by decide))⟩

/-- Counterexample to C1 as stated, with genuine cosine similarity.  The
new-session request `req2` states liked id 1 (unit vector `[3/5, 4/5]`),
while the stored profile `profE` holds liked id 2 (unit vector `[0, 1]`); the
candidates are items 1 and 3 (`[1, 0]`), the model is constantly 0.  Every
vector the booster touches — both candidate means and both recommendation
vectors — has squared norm exactly 1 (certified by the `dotProd` conjuncts),
and `ratSqrt` is exact at 1 (certified by the `ratSqrt` conjunct), so
`cosineSim` coincides with true cosine similarity at every point of use.  The
claim mandates boosted scores `0 + cos(statedMean, v) * 5`, i.e. 5 for item 1
and 3 for item 3; the code boosts with the stored profile's mean `[0, 1]` and
outputs 4 and 0 instead. -/
theorem session_booster_counterexample :
    req2.isNewSession = true ∧
    req2.statedLikedIds.filterMap (idToIndex store2) ≠ [] ∧
    ratSqrt 1 * ratSqrt 1 = 1 ∧
    dotProd (vecMean ((profE.likedIds.filterMap (idToIndex store2)).map (vecAt store2)))
      (vecMean ((profE.likedIds.filterMap (idToIndex store2)).map (vecAt store2))) = 1 ∧
    dotProd (vecMean ((req2.statedLikedIds.filterMap (idToIndex store2)).map (vecAt store2)))
      (vecMean ((req2.statedLikedIds.filterMap (idToIndex store2)).map (vecAt store2))) = 1 ∧
    dotProd (vecAt store2 0) (vecAt store2 0) = 1 ∧
    dotProd (vecAt store2 2) (vecAt store2 2) = 1 ∧
    ((generate_reel_core store2 pred0 cosineSim (some profE) req2).1.map
      (fun r => (r.item.animeId, r.score))) = [(1, 4), (3, 0)] ∧
    pred0 [] + cosineSim (vecMean ((req2.statedLikedIds.filterMap (idToIndex store2)).map
      (vecAt store2))) (vecAt store2 0) * 5 = 5 ∧
    pred0 [] + cosineSim (vecMean ((req2.statedLikedIds.filterMap (idToIndex store2)).map
      (vecAt store2))) (vecAt store2 2) * 5 = 3 ∧
    ((4 : Rat) ≠ 5) ∧ ((0 : Rat) ≠ 3) := by
  refine ⟨rfl, by decide,
    by norm_num [ratSqrt, Rat.num_one, Rat.den_one, Nat.sqrt_one],
    ?_, ?_, ?_, ?_, ?_, ?_, ?_, by norm_num, by norm_num⟩
  · norm_num [dotProd, vecMean, vecSum, vecAt, dfRow, store2, itemD, itemE, itemF, profE,
      idToIndex, List.filterMap_cons]
  · norm_num [dotProd, vecMean, vecSum, vecAt, dfRow, store2, itemD, itemE, itemF, req2,
      idToIndex, List.filterMap_cons]
  · norm_num [dotProd, vecAt, dfRow, store2, itemD, itemE, itemF]
  · norm_num [dotProd, vecAt, dfRow, store2, itemD, itemE, itemF]
  · norm_num [generate_reel_core, reelEffectiveProfile, reelExclusion, reelCandidateIds,
      candidatePoolFilter, hasPromo, isExplicitItem, explicitGenres, store2, itemD, itemE,
      itemF, profE, req2, build_user_profile_from_indices, vecMean, vecSum, vecAdd, vecAt,
      dfRow, topGenresOf, allGenres, studioPrefsOf, idToIndex, predict_scores_for_candidates,
      combinedFeatures, pred0, cosineSim, dotProd, ratSqrt, sessionBoost, List.insertionSort,
      List.orderedInsert, relScore, defaultItem, List.filter_cons, List.filterMap_cons]
  · norm_num [pred0, cosineSim, dotProd, ratSqrt, vecMean, vecSum, vecAt, dfRow, store2,
      itemD, itemE, itemF, req2, idToIndex, List.filterMap_cons]
  · norm_num [pred0, cosineSim, dotProd, ratSqrt, vecMean, vecSum, vecAt, dfRow, store2,
      itemD, itemE, itemF, req2, idToIndex, List.filterMap_cons]
